import Mathlib

/-!
Verification of the kelly_telegram response pipeline.

This file gives a shallow embedding of the two core source files of the
repository — bot/services/api_client.py (the backend HTTP client) and
bot/handlers/messages.py (the reply assembly of handle_text_message) —
and proves properties of that embedding.

Modelling conventions:
* Python/JSON values are modelled by the inductive type PyVal; Python
  floats are carried as rationals.
* The HTTP layer is an explicit parameter of type HttpOutcome: each
  constructor names one behaviour of the httpx call (timeout, connection
  failure, non-2xx status with its parsed body, 2xx with its parsed body
  where Option.none means the body was not valid JSON, or any other
  unexpected exception raised inside the try block).
* Fallible Python code returns Except String PyVal; an .error value is an
  exception escaping the function, carrying the exception kind. NOTE: the
  module api_client.py never imports the json module at module scope (it is
  only imported under the __main__ guard), so the clause
  "except json.JSONDecodeError" at line 157 raises NameError whenever it is
  evaluated. Python evaluates the class expression of each except clause in
  order until one matches, and an exception raised while evaluating that
  expression propagates out of the whole try statement. Hence every
  exception that is not an httpx.TimeoutException, httpx.RequestError or
  httpx.HTTPStatusError — in particular the JSONDecodeError of a malformed
  2xx body, and any TypeError raised on the 2xx path — escapes
  get_api_chat_response as a NameError; the trailing "except Exception"
  handler is unreachable. The embedding returns .error "NameError" on those
  paths.
-/

namespace Kelly

/-- Python/JSON value universe used by the embedding. Floats are modelled
as rationals. -/
inductive PyVal : Type where
  | none : PyVal
  | bool : Bool → PyVal
  | int : Int → PyVal
  | float : ℚ → PyVal
  | str : String → PyVal
  | list : List PyVal → PyVal
  | dict : List (String × PyVal) → PyVal

/-- Python truthiness of a value (bool(v)). -/
def truthy : PyVal → Bool
  | .none => false
  | .bool b => b
  | .int n => n != 0
  | .float q => q != 0
  | .str s => s != ""
  | .list xs => !xs.isEmpty
  | .dict kvs => !kvs.isEmpty

/-- Left-pads a numeral below 1000 to three digits. -/
def pad3 (r : Nat) : String :=
  (if r < 10 then "00" else if r < 100 then "0" else "") ++ toString r

/-- Nearest integer to 1000 times the rational q: the floor of
q * 1000 + 1/2, written with explicit integer arithmetic (the divisor
2 * q.den is positive, so Euclidean division is floor division). -/
def round1000 (q : ℚ) : Int := Int.ediv (2000 * q.num + q.den) (2 * q.den)

/-- Fixed-point formatting with three decimals, the embedding of the Python
format spec ".3f" (the half-to-even tie behaviour of binary floats is
approximated by rounding the exact rational half up; no property proved
here depends on a tie). -/
def fmt3 (q : ℚ) : String :=
  let n : Int := round1000 q
  (if n < 0 then "-" else "") ++ toString (n.natAbs / 1000) ++ "." ++ pad3 (n.natAbs % 1000)

mutual

/-- Python repr() of a value, as far as the embedding needs it. Exact for
None, booleans, integers and strings (ignoring escaping inside string
literals); the repr of a float is approximated by its three-decimal
rendering, which no proved property depends on. -/
def pyRepr : PyVal → String
  | .none => "None"
  | .bool true => "True"
  | .bool false => "False"
  | .int n => toString n
  | .float q => fmt3 q
  | .str s => "\x27" ++ s ++ "\x27"
  | .list xs => "[" ++ pyReprList xs ++ "]"
  | .dict kvs => "\x7b" ++ pyReprDict kvs ++ "\x7d"

/-- Comma-separated reprs of the elements of a list. -/
def pyReprList : List PyVal → String
  | [] => ""
  | [x] => pyRepr x
  | x :: y :: rest => pyRepr x ++ ", " ++ pyReprList (y :: rest)

/-- Comma-separated "key: value" reprs of the entries of a dict. -/
def pyReprDict : List (String × PyVal) → String
  | [] => ""
  | [(k, v)] => "\x27" ++ k ++ "\x27: " ++ pyRepr v
  | (k, v) :: e :: rest => "\x27" ++ k ++ "\x27: " ++ pyRepr v ++ ", " ++ pyReprDict (e :: rest)

end

/-- Python str() of a value: the string itself for a string, repr otherwise. -/
def pyStr : PyVal → String
  | .str s => s
  | v => pyRepr v

/-- Boolean test that the list of characters need is a prefix of hay. -/
def startsWithChars : List Char → List Char → Bool
  | [], _ => true
  | _ :: _, [] => false
  | a :: as, b :: bs => a == b && startsWithChars as bs

/-- Boolean test that need occurs as a contiguous run inside hay. -/
def hasSubChars (need : List Char) : List Char → Bool
  | [] => need.isEmpty
  | c :: rest => startsWithChars need (c :: rest) || hasSubChars need rest

/-- Python substring membership, "need in hay" for strings. -/
def pyInStr (need hay : String) : Bool := hasSubChars need.data hay.data

/-- Python membership of the string s in a list (element equality; a string
compares equal only to an equal string). -/
def listHasStr (s : String) (xs : List PyVal) : Bool :=
  xs.any (fun v => match v with | .str t => t == s | _ => false)

/-! Embedding of bot/services/api_client.py. -/

/-- Answer text of DEFAULT_API_ERROR_RESPONSE in api_client.py. -/
def DEFAULT_API_ERROR_ANSWER : String :=
  "Lo siento, no pude comunicarme con el sistema principal en este momento. Por favor, inténtalo de nuevo."

/-- Fallback dictionary built by the spreads of DEFAULT_API_ERROR_RESPONSE in
api_client.py: the given answer, an empty source list, and the session id of
the caller. -/
def errorResult (ans sid : String) : PyVal :=
  .dict [("answer", .str ans), ("sources", .list []), ("session_id", .str sid)]

/-- Fixed message of the 401 branch of the httpx.HTTPStatusError handler. -/
def AUTH_ERROR_ANSWER : String :=
  "Error de autenticación con la API interna. Contacta al administrador."

/-- Default error_detail of the httpx.HTTPStatusError handler. -/
def GENERIC_STATUS_ANSWER : String := "Error inesperado del servidor principal."

/-- Answer computed by the httpx.HTTPStatusError handler (lines 143-156 of
api_client.py): try e.response.json().get("detail"); a truthy detail on a
status below 500 is surfaced as "Error status: detail"; otherwise a 401
gives the fixed authentication message; any exception while reading the
body (body not JSON, or a JSON body that is not an object, so .get raises)
is swallowed and the generic default stands. -/
def statusAnswer (status : Nat) (body : Option PyVal) : String :=
  match body with
  | Option.some (.dict kvs) =>
    let detail := (kvs.lookup "detail").getD .none
    if truthy detail ∧ status < 500 then
      "Error " ++ toString status ++ ": " ++ pyStr detail
    else if status = 401 then AUTH_ERROR_ANSWER
    else GENERIC_STATUS_ANSWER
  | _ => GENERIC_STATUS_ANSWER

/-- Behaviour of the httpx layer for one call, the explicit parameter over
which get_api_chat_response is deterministic. -/
inductive HttpOutcome : Type where
  | timeout : HttpOutcome
  | requestError : HttpOutcome
  | httpStatus : Nat → Option PyVal → HttpOutcome
  | resp2xx : Option PyVal → HttpOutcome
  | otherException : HttpOutcome

/-- Tail of the 2xx branch (lines 131-134 of api_client.py): the test
"session_id" not in response_json, the injection of the session id, and the
return. On a dict the test is key membership and the injection appends the
key; on a list or a string that contains "session_id" the parsed body is
returned as-is; every other case raises TypeError at the membership test or
at the item assignment, which escapes as NameError (see the header note on
the unimported json module). -/
def finish2xx (session_id : String) : PyVal → Except String PyVal
  | .dict kvs =>
    if (kvs.lookup "session_id").isSome then .ok (.dict kvs)
    else .ok (.dict (kvs ++ [("session_id", .str session_id)]))
  | .list xs => if listHasStr "session_id" xs then .ok (.list xs) else .error "NameError"
  | .str s => if pyInStr "session_id" s then .ok (.str s) else .error "NameError"
  | _ => .error "NameError"

/-- Configuration state read by get_api_chat_response: the import guards of
api_client.py and the two settings it validates. An absent API key is
modelled by the empty string (the code tests both with Python truthiness). -/
structure ApiConfig where
  httpxAvailable : Bool
  configLoaded : Bool
  baseApiUrl : String
  apiKey : String

/-- Embedding of get_api_chat_response of api_client.py, as a function of
the configuration, the inputs, and the behaviour of the HTTP layer.
Returns .ok with the dictionary the Python function returns, or .error with
the kind of the exception that escapes it. -/
def get_api_chat_response (cfg : ApiConfig) (message session_id : String)
    (out : HttpOutcome) : Except String PyVal :=
  if !cfg.httpxAvailable || !cfg.configLoaded then
    .ok (errorResult DEFAULT_API_ERROR_ANSWER session_id)
  else if cfg.baseApiUrl.isEmpty || cfg.apiKey.isEmpty then
    .ok (errorResult DEFAULT_API_ERROR_ANSWER session_id)
  else
    match out with
    | .timeout =>
      .ok (errorResult "Lo siento, la respuesta está tardando demasiado." session_id)
    | .requestError =>
      .ok (errorResult "Lo siento, no pude conectarme con el sistema principal." session_id)
    | .httpStatus status body => .ok (errorResult (statusAnswer status body) session_id)
    | .resp2xx Option.none => .error "NameError"
    | .resp2xx (Option.some body) => finish2xx session_id body
    | .otherException => .error "NameError"

/-- Working configuration: both imports succeeded and both settings are
non-empty. -/
def cfgOK : ApiConfig :=
  { httpxAvailable := true, configLoaded := true
    baseApiUrl := "http://localhost:8000", apiKey := "clave-de-prueba" }

/-! Embedding of the reply assembly of handle_text_message in
bot/handlers/messages.py (lines 81-135, the segment that turns the
dictionary received from api_client into the outbound Telegram reply). -/

/-- Generic error message of messages.py. -/
def API_ERROR_MESSAGE : String :=
  "Lo siento, estoy teniendo problemas para conectar con mi cerebro principal en este momento. Por favor, intenta de nuevo en unos instantes."

/-- Rendering of one element of the sources list, at 0-based position i
(lines 108-118 of messages.py): a dict entry becomes a backticked
source_id (default "N/A") followed by the score in three decimals when the
score value is a float (isinstance check), nothing otherwise; a non-dict
entry becomes the fixed placeholder naming its 1-based position. -/
def sourceLine (i : Nat) : PyVal → String
  | .dict kvs =>
    let src_id := (kvs.lookup "source_id").getD (.str "N/A")
    let score := (kvs.lookup "score").getD .none
    let score_str :=
      match score with
      | .float q => " (" ++ fmt3 q ++ ")"
      | _ => ""
    "`" ++ pyStr src_id ++ "`" ++ score_str
  | _ => "Fuente " ++ toString (i + 1) ++ " inválida"

/-- Lines produced by the enumerate loop over the sources, starting at
0-based position i. -/
def sourceLines (i : Nat) : List PyVal → List String
  | [] => []
  | s :: rest => sourceLine i s :: sourceLines (i + 1) rest

/-- Debug suffix appended to the reply when the caller is authorized and has
debug mode active (lines 106-128 of messages.py): a truthy list renders its
lines under the "Fuentes (Debug)" header with a bullet-prefixed newline
separator; anything else (empty list, non-list, falsy) gives the fixed
"Ninguna encontrada o formato inválido" line. The inner empty-lines branch
of the source is kept although the loop yields one line per element. -/
def debugSuffix (sources : PyVal) : String :=
  match sources with
  | .list (s :: ss) =>
    let lines := sourceLines 0 (s :: ss)
    if lines.isEmpty then "\n\n---\n*Fuentes \\(Debug\\):* Ninguna"
    else "\n\n---\n*Fuentes \\(Debug\\):*\n • " ++ String.intercalate "\n • " lines
  | _ => "\n\n---\n*Fuentes \\(Debug\\):* Ninguna encontrada o formato inválido"

/-- Outbound reply: the value passed to reply_text and the parse_mode
keyword (Option.some "MarkdownV2" for ParseMode.MARKDOWN_V2, Option.none
when reply_text is called without parse_mode). -/
structure Reply where
  text : PyVal
  parse_mode : Option String

/-- Embedding of the reply assembly of handle_text_message: response_data is
the value received from api_client, user_id the caller, and the last two
parameters the configured authorized set and the debug_mode flag read from
context.user_data. A falsy or non-dict response_data is answered with the
generic message and no parse_mode (lines 81-84). A falsy answer is replaced
by the generic message and the sources are dropped (lines 89-93). The debug
suffix is appended only when the caller is authorized and the toggle is on;
appending to a truthy non-string answer raises TypeError, which the outer
handler catches, replying with the generic message and no parse_mode
(lines 137-142). Every other reply is sent with ParseMode.MARKDOWN_V2
(line 135). -/
def handle_text_message (response_data : PyVal) (user_id : Nat)
    (authorized_debug_user_ids : List Nat) (debug_mode : Bool) : Reply :=
  match response_data with
  | .dict kvs =>
    if kvs.isEmpty then { text := .str API_ERROR_MESSAGE, parse_mode := Option.none }
    else
      let answer0 := (kvs.lookup "answer").getD .none
      let sources0 := (kvs.lookup "sources").getD (.list [])
      let base := if truthy answer0 then answer0 else .str API_ERROR_MESSAGE
      let sources := if truthy answer0 then sources0 else .list []
      if user_id ∈ authorized_debug_user_ids ∧ debug_mode = true then
        match base with
        | .str s =>
          { text := .str (s ++ debugSuffix sources), parse_mode := Option.some "MarkdownV2" }
        | _ => { text := .str API_ERROR_MESSAGE, parse_mode := Option.none }
      else { text := base, parse_mode := Option.some "MarkdownV2" }
  | _ => { text := .str API_ERROR_MESSAGE, parse_mode := Option.none }

/-- Session key derivation of handle_text_message (line 66 of messages.py):
the f-string "tg_user_" followed by the decimal user id. -/
def session_id_of_user (user_id : Nat) : String := "tg_user_" ++ Nat.repr user_id

/-- Response dictionary with the three fields the backend contract names, in
the order the backend emits them; used to quantify over backend results. -/
def mkResp (a s sid : PyVal) : PyVal :=
  .dict [("answer", a), ("sources", s), ("session_id", sid)]

/-- Big-endian decimal digit characters of n, the fuel-free counterpart of
Nat.toDigitsCore at base 10. -/
def toDigitsChars (n : Nat) : List Char :=
  if h : n / 10 = 0 then [Nat.digitChar (n % 10)]
  else toDigitsChars (n / 10) ++ [Nat.digitChar (n % 10)]
decreasing_by
  have h10 : 10 ≤ n := by
    by_contra hlt
    exact h (Nat.div_eq_of_lt (by omega))
  exact Nat.div_lt_self (by omega) (by omega)

/-- Value of a big-endian list of decimal digit characters. -/
def digitsVal : List Char → Nat
  | [] => 0
  | c :: cs => (c.toNat - 48) * 10 ^ cs.length + digitsVal cs

/-- Spec-side SourceEntry: a source id with an optional float score,
modelling the data model sentence "SourceEntry: sourceId with an optional
float score", injected into the raw dictionaries the code consumes. -/
def entryDict (e : String × Option ℚ) : PyVal :=
  .dict (("source_id", .str e.1) ::
    (match e.2 with
     | Option.some q => [("score", .float q)]
     | Option.none => []))

/-- Spec-side rendering of one source line, following the words of the spec:
the sourceId as an inline code span, followed by the score formatted to
three decimals when a score is present, the sourceId alone otherwise. -/
def specSourceLine (src_id : String) (score : Option ℚ) : String :=
  match score with
  | Option.some q => "`" ++ src_id ++ "`" ++ " (" ++ fmt3 q ++ ")"
  | Option.none => "`" ++ src_id ++ "`"

/-! Helper lemmas. -/

lemma toDigitsCore_eq : ∀ (fuel n : Nat) (ds : List Char), n < fuel →
    Nat.toDigitsCore 10 fuel n ds = toDigitsChars n ++ ds := by
  intro fuel
  induction fuel with
  | zero => intro n ds h; omega
  | succ f ih =>
    intro n ds h
    by_cases h0 : n / 10 = 0
    · simp only [Nat.toDigitsCore]
      rw [if_pos h0, toDigitsChars, dif_pos h0, List.singleton_append]
    · simp only [Nat.toDigitsCore]
      have hn : n ≠ 0 := by
        intro hz; exact h0 (by simp [hz])
      have hdiv : n / 10 < n := Nat.div_lt_self (Nat.pos_of_ne_zero hn) (by norm_num)
      have hlt : n / 10 < f := by omega
      rw [if_neg h0, ih (n / 10) (Nat.digitChar (n % 10) :: ds) hlt]
      conv_rhs => rw [toDigitsChars]
      rw [dif_neg h0, List.append_assoc, List.singleton_append]

lemma digitsVal_append_singleton (xs : List Char) (c : Char) :
    digitsVal (xs ++ [c]) = digitsVal xs * 10 + (c.toNat - 48) := by
  induction xs with
  | nil => simp [digitsVal]
  | cons x xs ih =>
    simp only [List.cons_append, digitsVal, List.append_eq, ih, List.length_append,
      List.length_cons, List.length_nil]
    ring

lemma digitChar_toNat : ∀ d < 10, (Nat.digitChar d).toNat = d + 48 := by decide

lemma digitsVal_toDigitsChars (n : Nat) : digitsVal (toDigitsChars n) = n := by
  induction n using Nat.strong_induction_on with
  | _ n ih =>
    rw [toDigitsChars]
    by_cases h0 : n / 10 = 0
    · have hlt : n < 10 := by
        by_contra hge
        have h1 : 10 / 10 ≤ n / 10 := Nat.div_le_div_right (by omega)
        simp [h0] at h1
      rw [dif_pos h0]
      simp [digitsVal, digitChar_toNat (n % 10) (Nat.mod_lt _ (by omega))]
      omega
    · have hn : n ≠ 0 := by intro hz; exact h0 (by simp [hz])
      rw [dif_neg h0]
      rw [digitsVal_append_singleton,
        ih (n / 10) (Nat.div_lt_self (Nat.pos_of_ne_zero hn) (by norm_num)),
        digitChar_toNat (n % 10) (Nat.mod_lt _ (by omega))]
      omega

lemma repr_data_eq (n : Nat) : (Nat.repr n).data = toDigitsChars n := by
  show Nat.toDigits 10 n = toDigitsChars n
  unfold Nat.toDigits
  rw [toDigitsCore_eq (n + 1) n [] (Nat.lt_succ_self n), List.append_nil]

lemma repr_injective : Function.Injective Nat.repr := by
  intro a b h
  have h2 : toDigitsChars a = toDigitsChars b := by
    rw [← repr_data_eq, ← repr_data_eq, h]
  have h3 := congrArg digitsVal h2
  rwa [digitsVal_toDigitsChars, digitsVal_toDigitsChars] at h3

lemma session_id_of_user_injective : Function.Injective session_id_of_user := by
  intro a b h
  apply repr_injective
  have hd := congrArg String.data h
  simp only [session_id_of_user, String.data_append] at hd
  have h2 := List.append_cancel_left hd
  exact String.ext h2

/-- Computation rule of the assembly on a three-field backend result: the
whole branching structure of handle_text_message, with only the answer
truthiness test and the debug gate left symbolic. -/
lemma handle_mkResp (a s sid : PyVal) (uid : Nat) (auth : List Nat) (d : Bool) :
    handle_text_message (mkResp a s sid) uid auth d =
      if uid ∈ auth ∧ d = true then
        (match (if truthy a then a else .str API_ERROR_MESSAGE) with
         | .str t => { text := .str (t ++ debugSuffix (if truthy a then s else .list []))
                       parse_mode := Option.some "MarkdownV2" }
         | _ => { text := .str API_ERROR_MESSAGE, parse_mode := Option.none })
      else { text := (if truthy a then a else .str API_ERROR_MESSAGE)
             parse_mode := Option.some "MarkdownV2" } := rfl

lemma lookup_append_single_none {β : Type} (kvs : List (String × β)) (k k2 : String) (v : β)
    (h : kvs.lookup k = Option.none) (hne : (k == k2) = false) :
    (kvs ++ [(k2, v)]).lookup k = Option.none := by
  induction kvs with
  | nil => simp [List.lookup, hne]
  | cons e es ih =>
    obtain ⟨ke, ve⟩ := e
    simp only [List.cons_append, List.lookup] at h ⊢
    cases hk : (k == ke) with
    | false =>
      simp only [hk] at h ⊢
      exact ih h
    | true =>
      simp only [hk] at h
      exact Option.noConfusion h

lemma handle_dict_no_answer_no_debug (kvs : List (String × PyVal)) (uid : Nat) (auth : List Nat)
    (hne : kvs.isEmpty = false) (h : kvs.lookup "answer" = Option.none) :
    (handle_text_message (.dict kvs) uid auth false).text = .str API_ERROR_MESSAGE := by
  simp [handle_text_message, hne, h, truthy]

lemma sourceLine_entryDict (i : Nat) (e : String × Option ℚ) :
    sourceLine i (entryDict e) = specSourceLine e.1 e.2 := by
  obtain ⟨s, sc⟩ := e
  cases sc with
  | none => simp [sourceLine, entryDict, specSourceLine, pyStr, List.lookup]
  | some q =>
    simp [sourceLine, entryDict, specSourceLine, pyStr, List.lookup, String.append_assoc]
    rw [← String.append_assoc "`" " (" (fmt3 q ++ ")")]
    have hfold : ("`" : String) ++ " (" = "` (" := by decide
    rw [hfold]

lemma sourceLines_map_entryDict (i : Nat) (entries : List (String × Option ℚ)) :
    sourceLines i (entries.map entryDict) = entries.map (fun e => specSourceLine e.1 e.2) := by
  induction entries generalizing i with
  | nil => rfl
  | cons e es ih =>
    simp only [List.map_cons, sourceLines, sourceLine_entryDict, ih]

lemma sourceLines_length (k : Nat) (l : List PyVal) : (sourceLines k l).length = l.length := by
  induction l generalizing k with
  | nil => rfl
  | cons x xs ih => simp [sourceLines, ih]

lemma sourceLines_getD (k : Nat) (l : List PyVal) (i : Nat) (hi : i < l.length) :
    (sourceLines k l).getD i "" = sourceLine (k + i) (l.getD i .none) := by
  induction l generalizing k i with
  | nil => simp at hi
  | cons x xs ih =>
    cases i with
    | zero => simp [sourceLines]
    | succ j =>
      have hj : j < xs.length := by simpa using hi
      simp only [sourceLines, List.getD_cons_succ]
      rw [show k + (j + 1) = k + 1 + j by omega]
      exact ih (k + 1) j hj

lemma sourceLine_non_dict (i : Nat) (v : PyVal) (h : ∀ kvs, v ≠ .dict kvs) :
    sourceLine i v = "Fuente " ++ toString (i + 1) ++ " inválida" := by
  cases v <;> first | rfl | exact absurd rfl (h _)

/-! Claim theorems. -/

/-- C1: the claim says get_api_chat_response returns a BackendResult
dictionary for every behaviour of the HTTP layer and never lets an
exception propagate. The code violates this: on a 2xx response whose body
is not valid JSON, and on any unexpected exception inside the try block,
evaluating the clause "except json.JSONDecodeError" raises NameError (json
is never imported at module scope) and that NameError propagates to the
caller. This theorem evaluates the embedding at those failing inputs. -/
theorem invoke_raises_on_malformed_2xx_body :
    get_api_chat_response cfgOK "hola" "tg_user_1" (.resp2xx Option.none) = .error "NameError"
    ∧ get_api_chat_response cfgOK "hola" "tg_user_1" .otherException = .error "NameError" :=
  ⟨rfl, rfl⟩

/-- C2 counterexample: a 401 response whose body is a JSON object with a
truthy detail field is answered with "Error 401: detail" — upstream body
content is included and the fixed authentication message is not used,
because the branch "detail and status < 500" of api_client.py fires before
the 401 branch. -/
theorem auth_error_detail_leaks_on_401 :
    get_api_chat_response cfgOK "hola" "tg_user_1"
        (.httpStatus 401 (Option.some (.dict [("detail", .str "clave incorrecta")])))
      = .ok (errorResult "Error 401: clave incorrecta" "tg_user_1")
    ∧ pyInStr "clave incorrecta" "Error 401: clave incorrecta" = true
    ∧ "Error 401: clave incorrecta" ≠ AUTH_ERROR_ANSWER := ⟨rfl, by decide, by decide⟩

/-- C2 amended: the fixed authentication-error message is returned for a 401
exactly on the bodies whose detail is absent or falsy among JSON-object
bodies; this theorem proves that case (the leak of a truthy detail is the
counterexample, and a non-object 401 body takes the generic message). -/
theorem fixed_auth_message_when_401_detail_absent (m sid : String)
    (kvs : List (String × PyVal))
    (h : truthy ((kvs.lookup "detail").getD .none) = false) :
    get_api_chat_response cfgOK m sid (.httpStatus 401 (Option.some (.dict kvs)))
      = .ok (errorResult AUTH_ERROR_ANSWER sid) := by
  show Except.ok (errorResult (statusAnswer 401 (Option.some (.dict kvs))) sid) = _
  simp [statusAnswer, h]

/-- C2 witness: the 401 theorem applied to a concrete body without a detail
field. -/
theorem fixed_auth_message_witness :
    get_api_chat_response cfgOK "hola" "tg_user_2"
        (.httpStatus 401 (Option.some (.dict [("otra", .str "x")])))
      = .ok (errorResult AUTH_ERROR_ANSWER "tg_user_2") :=
  fixed_auth_message_when_401_detail_absent "hola" "tg_user_2" [("otra", .str "x")] (by decide)

/-- C3: when the caller is not in the authorized debug set, or the toggle is
off in both runs, the assembled reply is identical across any two runs that
differ only in the source list (and, when authorization is absent, also in
the toggle), and its text is exactly the base answer, with no Sources
header appended. -/
theorem sources_and_toggle_never_leak_without_optin
    (a s₁ s₂ sid : PyVal) (uid : Nat) (auth : List Nat) (d₁ d₂ : Bool)
    (h : uid ∉ auth ∨ (d₁ = false ∧ d₂ = false)) :
    handle_text_message (mkResp a s₁ sid) uid auth d₁
      = handle_text_message (mkResp a s₂ sid) uid auth d₂
    ∧ (handle_text_message (mkResp a s₁ sid) uid auth d₁).text
      = (if truthy a then a else .str API_ERROR_MESSAGE) := by
  have h₁ : ¬ (uid ∈ auth ∧ d₁ = true) := by rcases h with h | ⟨hh, _⟩ <;> simp_all
  have h₂ : ¬ (uid ∈ auth ∧ d₂ = true) := by rcases h with h | ⟨_, hh⟩ <;> simp_all
  rw [handle_mkResp, handle_mkResp, if_neg h₁, if_neg h₂]
  exact ⟨rfl, rfl⟩

/-- C3 witness: an unauthorized caller with the toggle on, compared to a run
with a different source list and the toggle off. -/
theorem sources_and_toggle_witness :
    handle_text_message (mkResp (.str "hola") (.list [.dict [("source_id", .str "A")]]) .none)
        5 [] true
      = handle_text_message (mkResp (.str "hola") (.list []) .none) 5 [] false
    ∧ (handle_text_message (mkResp (.str "hola") (.list [.dict [("source_id", .str "A")]]) .none)
        5 [] true).text
      = (if truthy (.str "hola") then (.str "hola") else .str API_ERROR_MESSAGE) :=
  sources_and_toggle_never_leak_without_optin (.str "hola")
    (.list [.dict [("source_id", .str "A")]]) (.list []) .none 5 [] true false
    (Or.inl (by simp))

/-- C4 counterexample: with an empty answer, a non-empty source list, an
authorized caller and the debug toggle on, the reply is the fallback text
followed by the "Fuentes (Debug): Ninguna encontrada o formato inválido"
header line — a Sources header does appear in the reply, contradicting the
claim that no Sources section is ever rendered in this case. -/
theorem sources_header_survives_empty_answer :
    handle_text_message (mkResp (.str "")
        (.list [.dict [("source_id", .str "FILE1_q0"), ("score", .float (mkRat 19 20))]]) .none)
      987 [987] true
      = { text := .str (API_ERROR_MESSAGE ++ "\n\n---\n*Fuentes \\(Debug\\):* Ninguna encontrada o formato inválido")
          parse_mode := Option.some "MarkdownV2" }
    ∧ pyInStr "Fuentes \\(Debug\\)"
        (API_ERROR_MESSAGE ++ "\n\n---\n*Fuentes \\(Debug\\):* Ninguna encontrada o formato inválido")
      = true :=
  ⟨rfl, by decide⟩

/-- C4 amended: a falsy (empty or missing) answer is replaced by the generic
fallback text and the source list is forced empty, so no source content is
ever rendered — the reply is independent of the source list — but when the
caller is authorized with the toggle on, the fixed empty-sources header
line is still appended. -/
theorem empty_answer_forces_fallback_and_drops_sources
    (a s sid : PyVal) (uid : Nat) (auth : List Nat) (d : Bool) (h : truthy a = false) :
    (handle_text_message (mkResp a s sid) uid auth d).text =
      .str (if uid ∈ auth ∧ d = true
            then API_ERROR_MESSAGE ++ "\n\n---\n*Fuentes \\(Debug\\):* Ninguna encontrada o formato inválido"
            else API_ERROR_MESSAGE) := by
  rw [handle_mkResp]
  by_cases hc : uid ∈ auth ∧ d = true
  · rw [if_pos hc, if_pos hc]
    simp [h, debugSuffix]
  · rw [if_neg hc, if_neg hc]
    simp [h]

/-- C4 witness: the empty-answer theorem applied to an empty answer with a
non-empty source list, an authorized caller and the toggle on. -/
theorem empty_answer_witness :
    (handle_text_message (mkResp (.str "") (.list [.dict [("source_id", .str "A")]]) .none)
        987 [987] true).text =
      .str (if 987 ∈ [987] ∧ true = true
            then API_ERROR_MESSAGE ++ "\n\n---\n*Fuentes \\(Debug\\):* Ninguna encontrada o formato inválido"
            else API_ERROR_MESSAGE) :=
  empty_answer_forces_fallback_and_drops_sources (.str "")
    (.list [.dict [("source_id", .str "A")]]) .none 987 [987] true rfl

/-- C5: the claim says a render with showDebug false has useRichFormat
false. The code violates this: reply_text is always called with
parse_mode=ParseMode.MARKDOWN_V2 (messages.py line 135), also for an
unauthorized caller and for an authorized caller with the toggle off — the
inputs of the repository's own tests, which assert the opposite. This
theorem evaluates the embedding at those inputs. -/
theorem rich_mode_used_even_without_debug :
    (handle_text_message (.dict [("answer", .str "Respuesta simulada por el RAG."),
        ("sources", .list [.dict [("source_id", .str "DOC_SIMULADO_q0"), ("score", .float (mkRat 99 100))]])])
      123 [] false).parse_mode = Option.some "MarkdownV2"
    ∧ (handle_text_message (.dict [("answer", .str "Respuesta simulada por el RAG."),
        ("sources", .list [.dict [("source_id", .str "DOC_SIMULADO_q0"), ("score", .float (mkRat 99 100))]])])
      987 [987] false).parse_mode = Option.some "MarkdownV2" := ⟨rfl, rfl⟩

/-- C6 counterexample: a 2xx JSON-object body without an answer field is
returned unchanged (apart from session_id injection) — it still lacks an
answer field and differs from the fallback the claim announces. -/
theorem missing_answer_body_returned_unchanged :
    get_api_chat_response cfgOK "hola" "tg_user_3"
        (.resp2xx (Option.some (.dict [("foo", .str "bar")])))
      = .ok (.dict [("foo", .str "bar"), ("session_id", .str "tg_user_3")])
    ∧ List.lookup "answer" [("foo", PyVal.str "bar"), ("session_id", PyVal.str "tg_user_3")]
        = Option.none
    ∧ PyVal.dict [("foo", PyVal.str "bar"), ("session_id", PyVal.str "tg_user_3")]
        ≠ errorResult DEFAULT_API_ERROR_ANSWER "tg_user_3" := by
  refine ⟨rfl, rfl, ?_⟩
  simp [errorResult]

/-- C6 amended: get_api_chat_response returns a 2xx object body lacking an
answer field unchanged apart from session_id injection; the substitution of
a generic message for the missing answer happens downstream, in the reply
assembly of handle_text_message. -/
theorem missing_answer_handled_downstream (m sid : String) (kvs : List (String × PyVal))
    (h : kvs.lookup "answer" = Option.none) :
    ∃ kvs2, get_api_chat_response cfgOK m sid (.resp2xx (Option.some (.dict kvs)))
        = .ok (.dict kvs2)
      ∧ (kvs2 = kvs ∨ kvs2 = kvs ++ [("session_id", .str sid)])
      ∧ kvs2.lookup "answer" = Option.none
      ∧ ∀ uid auth, (handle_text_message (.dict kvs2) uid auth false).text
          = .str API_ERROR_MESSAGE := by
  show ∃ kvs2, finish2xx sid (.dict kvs) = .ok (.dict kvs2) ∧ _
  by_cases hs : (kvs.lookup "session_id").isSome
  · refine ⟨kvs, by simp [finish2xx, hs], Or.inl rfl, h, ?_⟩
    intro uid auth
    have hne : kvs.isEmpty = false := by
      cases kvs with
      | nil => simp [List.lookup] at hs
      | cons e es => rfl
    exact handle_dict_no_answer_no_debug kvs uid auth hne h
  · have h2 : (kvs ++ [("session_id", PyVal.str sid)]).lookup "answer" = Option.none :=
      lookup_append_single_none kvs "answer" "session_id" (.str sid) h (by decide)
    refine ⟨kvs ++ [("session_id", .str sid)], by simp [finish2xx, hs], Or.inr rfl, h2, ?_⟩
    intro uid auth
    have hne : (kvs ++ [("session_id", PyVal.str sid)]).isEmpty = false := by
      cases kvs <;> rfl
    exact handle_dict_no_answer_no_debug _ uid auth hne h2

/-- C6 witness: the missing-answer theorem applied to a concrete body
without an answer field. -/
theorem missing_answer_handled_downstream_witness :
    ∃ kvs2, get_api_chat_response cfgOK "hola" "tg_user_4"
        (.resp2xx (Option.some (.dict [("foo", .str "bar")]))) = .ok (.dict kvs2)
      ∧ (kvs2 = [("foo", PyVal.str "bar")]
          ∨ kvs2 = [("foo", PyVal.str "bar")] ++ [("session_id", .str "tg_user_4")])
      ∧ kvs2.lookup "answer" = Option.none
      ∧ ∀ uid auth, (handle_text_message (.dict kvs2) uid auth false).text
          = .str API_ERROR_MESSAGE :=
  missing_answer_handled_downstream "hola" "tg_user_4" [("foo", .str "bar")] rfl

/-- C7 counterexample: a source entry whose score is present but is an
integer rather than a float (the isinstance check of messages.py line 113)
is rendered as the bare sourceId, with no score — the claim says a present
score is always formatted to three decimals. -/
theorem integer_score_not_rendered :
    handle_text_message (mkResp (.str "Hola.")
        (.list [.dict [("source_id", .str "A"), ("score", .int 1)]]) .none) 987 [987] true
      = { text := .str ("Hola." ++ "\n\n---\n*Fuentes \\(Debug\\):*\n • `A`")
          parse_mode := Option.some "MarkdownV2" } := rfl

/-- C7 amended: for float (or absent) scores the claim holds — with
showDebug true and a non-empty source list, every entry is rendered in the
original order as a backticked sourceId with its score in three decimals
when present as a float, the sourceId alone otherwise, the lines are joined
by the bullet-prefixed newline separator under the Sources header preceded
by a blank line and a horizontal rule, and the reply is in rich
(MarkdownV2) mode. -/
theorem debug_rendering_of_float_scored_sources (ans : String) (hans : ans ≠ "")
    (entries : List (String × Option ℚ)) (hne : entries ≠ []) (sid : PyVal)
    (uid : Nat) (auth : List Nat) (hauth : uid ∈ auth) :
    handle_text_message (mkResp (.str ans) (.list (entries.map entryDict)) sid) uid auth true
      = { text := .str (ans ++ ("\n\n---\n*Fuentes \\(Debug\\):*\n • "
            ++ String.intercalate "\n • " (entries.map (fun e => specSourceLine e.1 e.2))))
          parse_mode := Option.some "MarkdownV2" } := by
  obtain ⟨e, es, rfl⟩ : ∃ e es, entries = e :: es := by
    cases entries with
    | nil => exact absurd rfl hne
    | cons e es => exact ⟨e, es, rfl⟩
  have ht : truthy (.str ans) = true := by simp [truthy, hans]
  rw [handle_mkResp, if_pos ⟨hauth, rfl⟩, ht]
  simp only [if_true]
  rw [show (PyVal.list ((e :: es).map entryDict)) = .list (entryDict e :: es.map entryDict)
      from rfl]
  simp only [debugSuffix]
  rw [show sourceLines 0 (entryDict e :: es.map entryDict)
        = sourceLines 0 ((e :: es).map entryDict) from rfl,
    sourceLines_map_entryDict]
  simp only [List.map_cons, List.isEmpty_cons, if_false]
  rfl

/-- C7 witness: the rendering theorem applied to the two sources of the spec
test, evaluating to the literal expected reply. -/
theorem debug_rendering_witness :
    handle_text_message (mkResp (.str "Respuesta detallada.")
        (.list ([("FILE1_q0", Option.some (mkRat 19 20)),
                 ("priority_context", Option.some (mkRat 1 1))].map entryDict)) .none)
      987 [987] true
      = { text := .str "Respuesta detallada.\n\n---\n*Fuentes \\(Debug\\):*\n • `FILE1_q0` (0.950)\n • `priority_context` (1.000)"
          parse_mode := Option.some "MarkdownV2" } :=
  (debug_rendering_of_float_scored_sources "Respuesta detallada." (by decide)
      [("FILE1_q0", Option.some (mkRat 19 20)), ("priority_context", Option.some (mkRat 1 1))]
      (by decide) .none 987 [987] (by decide)).trans (by rfl)

/-- C8: the session key of a user is "tg_user_" followed by the decimal user
id — a pure, hence repeat-stable, function — and it is injective: distinct
user ids give distinct keys; user ids 1 and 2 give "tg_user_1" and
"tg_user_2". -/
theorem session_key_stable_and_injective :
    Function.Injective session_id_of_user
    ∧ session_id_of_user 1 = "tg_user_1" ∧ session_id_of_user 2 = "tg_user_2" :=
  ⟨session_id_of_user_injective, rfl, rfl⟩

/-- C9 counterexample: on the malformed-2xx-body fault the function returns
no fallback at all — it raises (NameError through the unimported json
module) — so the claim, which lists malformed body among the faults whose
fallback carries the sessionKey, fails there. -/
theorem malformed_body_returns_no_fallback :
    get_api_chat_response cfgOK "hola" "tg_user_9" (.resp2xx Option.none) = .error "NameError"
    ∧ ∀ r, get_api_chat_response cfgOK "hola" "tg_user_9" (.resp2xx Option.none) ≠ .ok r := by
  refine ⟨rfl, ?_⟩
  intro r h
  exact Except.noConfusion h

/-- C9 amended: every fallback the function actually returns — on an HTTP
error status, a timeout, a connection failure, or missing
configuration — carries the caller-supplied sessionKey in its session_id
field, and a 2xx object body lacking session_id has the sessionKey injected
before return; only the malformed-body path returns nothing. -/
theorem fallbacks_carry_session_key (m sid : String) :
    (∀ st body, get_api_chat_response cfgOK m sid (.httpStatus st body)
        = .ok (errorResult (statusAnswer st body) sid))
    ∧ get_api_chat_response cfgOK m sid .timeout
        = .ok (errorResult "Lo siento, la respuesta está tardando demasiado." sid)
    ∧ get_api_chat_response cfgOK m sid .requestError
        = .ok (errorResult "Lo siento, no pude conectarme con el sistema principal." sid)
    ∧ (∀ (cfg : ApiConfig) (out : HttpOutcome),
        cfg.httpxAvailable = false ∨ cfg.configLoaded = false
            ∨ cfg.baseApiUrl = "" ∨ cfg.apiKey = "" →
        get_api_chat_response cfg m sid out = .ok (errorResult DEFAULT_API_ERROR_ANSWER sid))
    ∧ (∀ kvs, kvs.lookup "session_id" = Option.none →
        get_api_chat_response cfgOK m sid (.resp2xx (Option.some (.dict kvs)))
          = .ok (.dict (kvs ++ [("session_id", .str sid)])))
    ∧ (∀ ans, (match errorResult ans sid with
               | .dict kvs => kvs.lookup "session_id"
               | _ => Option.none) = Option.some (.str sid)) := by
  refine ⟨fun st body => rfl, rfl, rfl, ?_, ?_, fun ans => rfl⟩
  · intro cfg out h
    unfold get_api_chat_response
    by_cases h1 : (!cfg.httpxAvailable || !cfg.configLoaded) = true
    · rw [if_pos h1]
    · rw [if_neg h1]
      have h2 : (cfg.baseApiUrl.isEmpty || cfg.apiKey.isEmpty) = true := by
        rcases h with h | h | h | h
        · simp [h] at h1
        · simp [h] at h1
        · rw [h, show ("" : String).isEmpty = true from rfl, Bool.true_or]
        · rw [h, show ("" : String).isEmpty = true from rfl, Bool.or_true]
      rw [if_pos h2]
  · intro kvs hk
    show finish2xx sid (.dict kvs) = _
    simp [finish2xx, hk]

/-- C9 witness: the session-key theorem applied to a 2xx body without a
session_id field. -/
theorem fallbacks_carry_session_key_witness :
    get_api_chat_response cfgOK "hola" "tg_user_5" (.resp2xx (Option.some (.dict [])))
      = .ok (.dict ([] ++ [("session_id", .str "tg_user_5")])) :=
  (fallbacks_carry_session_key "hola" "tg_user_5").2.2.2.2.1 [] rfl

/-- C10: with showDebug true the assembly never fails on malformed source
entries: a reply extending the answer is produced for every source list;
one line is rendered per entry; a non-empty list is rendered in full under
the Sources header; and every non-dict entry at 0-based position i yields
the fixed placeholder line naming its 1-based position i + 1, while the
remaining entries are still rendered. -/
theorem invalid_source_entries_get_placeholders (ans : String) (hans : ans ≠ "")
    (srcs : List PyVal) (sid : PyVal) (uid : Nat) (auth : List Nat) (hauth : uid ∈ auth) :
    (∃ suffix, (handle_text_message (mkResp (.str ans) (.list srcs) sid) uid auth true).text
        = .str (ans ++ suffix))
    ∧ (sourceLines 0 srcs).length = srcs.length
    ∧ (srcs ≠ [] →
        (handle_text_message (mkResp (.str ans) (.list srcs) sid) uid auth true).text
          = .str (ans ++ ("\n\n---\n*Fuentes \\(Debug\\):*\n • "
              ++ String.intercalate "\n • " (sourceLines 0 srcs))))
    ∧ (∀ i, i < srcs.length → (∀ kvs, srcs.getD i .none ≠ PyVal.dict kvs) →
        (sourceLines 0 srcs).getD i "" = "Fuente " ++ toString (i + 1) ++ " inválida") := by
  have ht : truthy (.str ans) = true := by simp [truthy, hans]
  have hmain : (handle_text_message (mkResp (.str ans) (.list srcs) sid) uid auth true).text
      = .str (ans ++ debugSuffix (.list srcs)) := by
    rw [handle_mkResp, if_pos ⟨hauth, rfl⟩]
    simp only [ht, if_true]
  refine ⟨⟨debugSuffix (.list srcs), hmain⟩, sourceLines_length 0 srcs, ?_, ?_⟩
  · intro hne
    obtain ⟨x, xs, rfl⟩ : ∃ x xs, srcs = x :: xs := by
      cases srcs with
      | nil => exact absurd rfl hne
      | cons x xs => exact ⟨x, xs, rfl⟩
    rw [hmain]
    simp only [debugSuffix, sourceLines, List.isEmpty_cons, Bool.false_eq_true, if_false]
  · intro i hi hnd
    rw [sourceLines_getD 0 srcs i hi, Nat.zero_add]
    exact sourceLine_non_dict i _ hnd

/-- C10 witness: the placeholder theorem applied to a list whose first entry
is the integer 7 (not a dict), showing the placeholder of position 1. -/
theorem invalid_source_entries_witness :
    (sourceLines 0 [PyVal.int 7, PyVal.dict [("source_id", PyVal.str "A")]]).getD 0 ""
      = "Fuente " ++ toString (0 + 1) ++ " inválida" :=
  (invalid_source_entries_get_placeholders "Hola." (by decide)
      [.int 7, .dict [("source_id", .str "A")]] .none 987 [987] (by decide)).2.2.2 0 (by decide)
    (fun kvs h => PyVal.noConfusion h)

end Kelly
